import Mathlib

/-
Verification of the duckhunt keystroke-injection detection agent.

The development shallowly embeds the Python sources of the Windows agent
(package duckhunt_win): the sliding-window keystroke detector
(detector.py), the daemon message/capture loop (daemon.py), the
controller incident correlation and command sending (controller.py),
the watchdog supervision tick (watchdog.py) and configuration loading
(config.py).  Python floats carrying millisecond timestamps are
modelled as exact rationals; fallible Python operations (indexing,
division, keyword-argument binding, child-process spawn) return Except
values whose error constructors name the Python exception they stand
for.
-/

/-- Python runtime exceptions that the embedded code can raise. -/
inductive PyError where
  | zeroDivision
  | indexError
  | typeErrorUnexpectedKw
  | attributeError
  | spawnError
deriving DecidableEq

/-- Python sequence indexing on a list of rationals: a negative index
counts from the end, an out-of-range index raises IndexError. -/
def pyIndex (l : List ℚ) (i : Int) : Except PyError ℚ :=
  let j : Int := if i < 0 then i + l.length else i
  if 0 ≤ j ∧ j < l.length then
    .ok (l.getD j.toNat 0)
  else
    .error .indexError

/-- Appending to a collections.deque with a maxlen bound: the new
element goes to the right and, once over the bound, oldest entries
are dropped from the left. -/
def dequeAppend (maxlen : Nat) (l : List ℚ) (x : ℚ) : List ℚ :=
  let l' := l ++ [x]
  l'.drop (l'.length - maxlen)

/-- State of duckhunt_win.detector.KeystrokeDetector: the five
settings fields and the timestamp deque (capacity history_size). -/
structure KeystrokeDetector where
  threshold_ms : ℚ
  history_size : Nat
  burst_keys : Nat
  burst_window_ms : ℚ
  allow_auto_type : Bool
  timestamps : List ℚ
deriving DecidableEq

/-- KeystrokeDetector.__init__ with explicit arguments and an empty
timestamp deque. -/
def mkDetector (threshold_ms : ℚ) (history_size : Nat) (burst_keys : Nat)
    (burst_window_ms : ℚ) (allow_auto_type : Bool) : KeystrokeDetector :=
  { threshold_ms := threshold_ms, history_size := history_size,
    burst_keys := burst_keys, burst_window_ms := burst_window_ms,
    allow_auto_type := allow_auto_type, timestamps := [] }

/-- KeystrokeDetector() with the default argument values of __init__. -/
def defaultDetector : KeystrokeDetector := mkDetector 30 25 10 100 true

/-- KeystrokeDetector._check_speed: below history_size entries the
check returns False; otherwise the first and last timestamps are read
(IndexError on an empty deque) and the average interval
(last - first) / (len - 1) is compared against threshold_ms
(ZeroDivisionError when len = 1). -/
def check_speed (d : KeystrokeDetector) : Except PyError Bool :=
  if d.timestamps.length < d.history_size then .ok false
  else do
    let last ← pyIndex d.timestamps (-1)
    let first ← pyIndex d.timestamps 0
    if d.timestamps.length - 1 = 0 then .error .zeroDivision
    else .ok (decide ((last - first) / ((d.timestamps.length : ℚ) - 1) < d.threshold_ms))

/-- KeystrokeDetector._check_burst: below burst_keys entries the check
returns False; otherwise the timestamps at Python indices -burst_keys
and -1 are read and their difference compared against
burst_window_ms. -/
def check_burst (d : KeystrokeDetector) : Except PyError Bool :=
  if d.timestamps.length < d.burst_keys then .ok false
  else do
    let burst_start ← pyIndex d.timestamps (-(d.burst_keys : Int))
    let burst_end ← pyIndex d.timestamps (-1)
    .ok (decide (burst_end - burst_start < d.burst_window_ms))

/-- KeystrokeDetector.process_keystroke with an explicit timestamp:
append to the deque, then return _check_speed() or _check_burst()
(Python or, so the burst check only runs when the speed check is
False). -/
def process_keystroke (d : KeystrokeDetector) (timestamp : ℚ) :
    Except PyError (KeystrokeDetector × Bool) :=
  let d' := { d with timestamps := dequeAppend d.history_size d.timestamps timestamp }
  do
    let s ← check_speed d'
    if s then .ok (d', true)
    else do
      let b ← check_burst d'
      .ok (d', b)

/-- KeystrokeDetector.update_settings: replace the four threshold
fields; when history_size changes, rebuild the deque with the new
maxlen, which keeps the most recent entries (deque construction from
an iterable with a maxlen keeps the last maxlen items). -/
def update_settings (d : KeystrokeDetector) (threshold_ms : ℚ) (history_size : Nat)
    (burst_keys : Nat) (burst_window_ms : ℚ) (allow_auto_type : Bool) :
    KeystrokeDetector :=
  let d1 : KeystrokeDetector :=
    { d with threshold_ms := threshold_ms, burst_keys := burst_keys,
             burst_window_ms := burst_window_ms, allow_auto_type := allow_auto_type }
  if history_size = d.history_size then d1
  else
    { d1 with history_size := history_size,
              timestamps := d.timestamps.drop (d.timestamps.length - history_size) }

/-- KeystrokeDetector.reset: clear the timestamp deque. -/
def reset (d : KeystrokeDetector) : KeystrokeDetector :=
  { d with timestamps := [] }

/-- Keyword arguments of a Python call to process_keystroke.  The
daemon hook callback passes is_injected as a keyword argument. -/
structure KeystrokeKwArgs where
  timestamp : Option ℚ
  is_injected : Option Bool
deriving DecidableEq

/-- Python call semantics for KeystrokeDetector.process_keystroke.
The def in detector.py accepts only the keyword timestamp (defaulting
to the current time, supplied here as now); binding any is_injected
keyword raises TypeError because the signature has no such
parameter. -/
def process_keystroke_call (d : KeystrokeDetector) (now : ℚ) (args : KeystrokeKwArgs) :
    Except PyError (KeystrokeDetector × Bool) :=
  match args.is_injected with
  | some _ => .error .typeErrorUnexpectedKw
  | none => process_keystroke d (args.timestamp.getD now)

/-- The call made by DuckHuntDaemon._low_level_keyboard_proc for a
key-down while running: self.detector.process_keystroke with the
single keyword argument is_injected. -/
def daemon_detect (d : KeystrokeDetector) (now : ℚ) (inj : Bool) :
    Except PyError (KeystrokeDetector × Bool) :=
  process_keystroke_call d now { timestamp := none, is_injected := some inj }

/-- Feed a list of explicit timestamps through process_keystroke,
threading the detector state and collecting each call's result. -/
def run_keystrokes (d : KeystrokeDetector) : List ℚ → Except PyError (KeystrokeDetector × List Bool)
  | [] => .ok (d, [])
  | t :: ts => do
    let r ← process_keystroke d t
    let r' ← run_keystrokes r.1 ts
    .ok (r'.1, r.2 :: r'.2)

/-- Messages the daemon's run loop dispatches on (the inbound subset
of the IPC message kinds in ipc.py: start, stop, config, exit). -/
inductive DaemonMsg where
  | start
  | stop
  | config (threshold : ℚ) (history_size : Nat) (burst_keys : Nat)
      (burst_window_ms : ℚ) (allow_auto_type : Bool)
  | exitMsg
deriving DecidableEq

/-- Observable state of DuckHuntDaemon: the running flag, whether the
low-level keyboard hook is installed (_hook_id is set), whether conn
is set, whether run() has returned, and the owned detector. -/
structure DaemonState where
  running : Bool
  hook_installed : Bool
  connected : Bool
  terminated : Bool
  detector : KeystrokeDetector
deriving DecidableEq

/-- Side effects of one daemon loop step: milliseconds slept, calls
to UnhookWindowsHookEx, and calls to conn.close(). -/
structure DaemonEffects where
  sleep_ms : Nat
  uninstalls : Nat
  closes : Nat
deriving DecidableEq

/-- No side effects. -/
def noEffects : DaemonEffects := { sleep_ms := 0, uninstalls := 0, closes := 0 }

/-- Events driving one iteration of DuckHuntDaemon.run: a connect
attempt in the connection loop (succeeding or failing), a message
received over the channel, or the channel breaking (recv raised
EOFError or another exception). -/
inductive DaemonEvent where
  | connectAttempt (ok : Bool)
  | recvMsg (m : DaemonMsg)
  | channelDrop
deriving DecidableEq

/-- DuckHuntDaemon.stop_monitoring: clear running, uninstall the hook
when installed (counting the UnhookWindowsHookEx call), and reset the
detector.  The trailing status send is a no-op for these observables. -/
def stop_monitoring (s : DaemonState) : DaemonState × Nat :=
  ({ s with running := false, hook_installed := false, detector := reset s.detector },
   if s.hook_installed then 1 else 0)

/-- DuckHuntDaemon.start_monitoring on the hook-install success path:
the hook is installed and running is set. -/
def start_monitoring (s : DaemonState) : DaemonState :=
  { s with hook_installed := true, running := true }

/-- One iteration of DuckHuntDaemon.run.  After run() has returned,
no further event has any effect.  In the connection loop a failed
connect is followed by time.sleep(1.0); a successful connect enters
the application loop without touching monitoring state.  While
connected: start installs the hook and sets running; stop and a
channel drop both call stop_monitoring (the drop first clears conn,
so its status send is skipped); config calls update_settings on the
live detector; exit calls stop_monitoring, closes the channel and
returns. -/
def daemon_step (s : DaemonState) (e : DaemonEvent) : DaemonState × DaemonEffects :=
  if s.terminated then (s, noEffects)
  else
    match e with
    | .connectAttempt ok =>
      if s.connected then (s, noEffects)
      else if ok then ({ s with connected := true }, noEffects)
      else (s, { noEffects with sleep_ms := 1000 })
    | .channelDrop =>
      if s.connected then
        let s1 := { s with connected := false }
        let r := stop_monitoring s1
        (r.1, { noEffects with uninstalls := r.2 })
      else (s, noEffects)
    | .recvMsg m =>
      if s.connected then
        match m with
        | .start => (start_monitoring s, noEffects)
        | .stop =>
          let r := stop_monitoring s
          (r.1, { noEffects with uninstalls := r.2 })
        | .config t hs bk bw aat =>
          ({ s with detector := update_settings s.detector t hs bk bw aat }, noEffects)
        | .exitMsg =>
          let r := stop_monitoring s
          ({ r.1 with connected := false, terminated := true },
           { noEffects with uninstalls := r.2, closes := 1 })
      else (s, noEffects)

/-- Pointwise sum of step effects. -/
def addEffects (a b : DaemonEffects) : DaemonEffects :=
  { sleep_ms := a.sleep_ms + b.sleep_ms,
    uninstalls := a.uninstalls + b.uninstalls,
    closes := a.closes + b.closes }

/-- Run the daemon loop over a list of events, accumulating effects. -/
def daemon_run (s : DaemonState) : List DaemonEvent → DaemonState × DaemonEffects
  | [] => (s, noEffects)
  | e :: es =>
    let r1 := daemon_step s e
    let r2 := daemon_run r1.1 es
    (r2.1, addEffects r1.2 r2.2)

/-- Outcome the transport reports for one send attempt on the
controller's client connection. -/
inductive SendResult where
  | delivered
  | failed
deriving DecidableEq

/-- DuckHuntController.send_command: when client_conn is unset the
send is skipped; when the send raises, the handle is cleared inside
the except block.  First component: whether client_conn is still set
afterwards; second: whether an exception escaped to the caller
(never). -/
def send_command (client_conn : Bool) (r : SendResult) : Bool × Bool :=
  match client_conn, r with
  | false, _ => (false, false)
  | true, .delivered => (true, false)
  | true, .failed => (false, false)

/-- Incident-correlation state of DuckHuntController: is_locked and
incident_pending. -/
structure ControllerState where
  is_locked : Bool
  incident_pending : Bool
deriving DecidableEq

/-- Events hitting the controller's incident logic: a detected IPC
message (_handle_detected), and the session monitor's lock/unlock
callbacks. -/
inductive ControllerEvent where
  | detected
  | sessionLock
  | sessionUnlock
deriving DecidableEq

/-- One controller event with the number of tray notifications it
emits.  _handle_detected sets incident_pending and emits nothing;
on_session_lock records the lock; on_session_unlock clears is_locked
and, when an incident is pending, queues exactly one notification and
clears the flag. -/
def controller_step (s : ControllerState) (e : ControllerEvent) : ControllerState × Nat :=
  match e with
  | .detected => ({ s with incident_pending := true }, 0)
  | .sessionLock => ({ s with is_locked := true }, 0)
  | .sessionUnlock =>
    if s.incident_pending then
      ({ is_locked := false, incident_pending := false }, 1)
    else
      ({ s with is_locked := false }, 0)

/-- Run the controller over an event list, counting notifications. -/
def controller_run (s : ControllerState) : List ControllerEvent → ControllerState × Nat
  | [] => (s, 0)
  | e :: es =>
    let r1 := controller_step s e
    let r2 := controller_run r1.1 es
    (r2.1, r1.2 + r2.2)

/-- Watchdog state: whether daemon_process is set, the tracked
controller pid, and the should_exit flag. -/
structure WatchdogState where
  daemon_launched : Bool
  controller_pid : Option Nat
  should_exit : Bool
deriving DecidableEq

/-- Environment observations and spawn outcomes for one watchdog
tick: whether the tracked children are alive, whether each
subprocess.Popen call would succeed, and the pid a relaunched
controller would get. -/
structure WatchdogTickInput where
  daemon_alive : Bool
  controller_alive : Bool
  daemon_spawn_ok : Bool
  controller_spawn_ok : Bool
  new_controller_pid : Nat
deriving DecidableEq

/-- Watchdog.launch_daemon: subprocess.Popen records the child on
success and raises on a failed spawn (the call is not guarded by any
try block). -/
def launch_daemon_w (spawn_ok : Bool) (s : WatchdogState) : Except PyError WatchdogState :=
  if spawn_ok then .ok { s with daemon_launched := true } else .error .spawnError

/-- Watchdog.launch_controller: Popen records the new controller pid
on success and raises on a failed spawn (unguarded). -/
def launch_controller_w (spawn_ok : Bool) (pid : Nat) (s : WatchdogState) :
    Except PyError WatchdogState :=
  if spawn_ok then .ok { s with controller_pid := some pid } else .error .spawnError

/-- One iteration of the while loop in Watchdog.run: sleep one
second, relaunch the daemon if it is unset or has died, relaunch the
controller if its pid is unset or not running.  An exception from
either Popen propagates out of the loop. -/
def watchdog_tick (s : WatchdogState) (i : WatchdogTickInput) : Except PyError WatchdogState := do
  let s1 ←
    if s.daemon_launched then
      if i.daemon_alive then .ok s
      else launch_daemon_w i.daemon_spawn_ok s
    else launch_daemon_w i.daemon_spawn_ok s
  match s1.controller_pid with
  | some _ =>
    if i.controller_alive then .ok s1
    else launch_controller_w i.controller_spawn_ok i.new_controller_pid s1
  | none => launch_controller_w i.controller_spawn_ok i.new_controller_pid s1

/-- The while loop of Watchdog.run over a list of tick inputs: the
loop keeps iterating while should_exit is false, and an exception
from a tick aborts the whole run. -/
def watchdog_run (s : WatchdogState) : List WatchdogTickInput → Except PyError WatchdogState
  | [] => .ok s
  | i :: is =>
    if s.should_exit then .ok s
    else do
      let s1 ← watchdog_tick s i
      watchdog_run s1 is

/-- Python values stored in parsed configuration data: ints, bools,
strings and tables (dicts keyed by strings). -/
inductive PyVal where
  | int (n : Int)
  | bool (b : Bool)
  | str (s : String)
  | table (kvs : List (String × PyVal))

/-- Dict lookup with a default, as dict.get(key, default). -/
def tableGet (kvs : List (String × PyVal)) (k : String) (dflt : PyVal) : PyVal :=
  match kvs.find? (fun kv => kv.1 == k) with
  | some kv => kv.2
  | none => dflt

/-- Python truthiness, as bool(x): zero, empty and False are falsy. -/
def pyTruthy : PyVal → Bool
  | .int n => decide (n ≠ 0)
  | .bool b => b
  | .str s => decide (s ≠ "")
  | .table kvs => !kvs.isEmpty

/-- Python isinstance(x, int): bool is a subclass of int. -/
def isIntLike : PyVal → Bool
  | .int _ => true
  | .bool _ => true
  | _ => false

/-- The Config dataclass of config.py.  The constructor performs no
validation, so fields hold whatever Python value was read. -/
structure PyConfig where
  threshold : PyVal
  history_size : PyVal
  burst_keys : PyVal
  burst_window_ms : PyVal
  allow_auto_type : PyVal
  run_on_startup : PyVal
  watchdog_enabled : PyVal

/-- Config() with the dataclass field defaults. -/
def defaultConfig : PyConfig :=
  { threshold := .int 30, history_size := .int 25, burst_keys := .int 10,
    burst_window_ms := .int 100, allow_auto_type := .bool true,
    run_on_startup := .bool true, watchdog_enabled := .bool true }

/-- Outcome of tomllib.loads on the file text: a parse exception, or
the parsed top-level table. -/
inductive TomlParse where
  | failure
  | success (data : List (String × PyVal))

/-- Config.from_toml: a parse exception inside the try block yields
the defaults; otherwise data.get("duckhunt", an empty table) is read
with .get per field — which raises AttributeError when the duckhunt
key holds a non-table value. -/
def from_toml (p : TomlParse) : Except PyError PyConfig :=
  match p with
  | .failure => .ok defaultConfig
  | .success data =>
    match tableGet data "duckhunt" (.table []) with
    | .table kvs =>
      .ok { threshold := tableGet kvs "threshold" (.int 30),
            history_size := tableGet kvs "history_size" (.int 25),
            burst_keys := tableGet kvs "burst_keys" (.int 10),
            burst_window_ms := tableGet kvs "burst_window_ms" (.int 100),
            allow_auto_type := tableGet kvs "allow_auto_type" (.bool true),
            run_on_startup := tableGet kvs "run_on_startup" (.bool true),
            watchdog_enabled := tableGet kvs "watchdog_enabled" (.bool true) }
    | _ => .error .attributeError

/-- Outcome of exec-ing the legacy conf file: an exception, or the
resulting module globals. -/
inductive ExecOutcome where
  | failure
  | success (globals : List (String × PyVal))

/-- Config.from_legacy_conf: an exec exception yields the defaults;
otherwise threshold and history_size are taken when isinstance int
(else their defaults), the burst fields get the fixed defaults, and
the three flags go through bool(). -/
def from_legacy_conf (e : ExecOutcome) : Except PyError PyConfig :=
  match e with
  | .failure => .ok defaultConfig
  | .success g =>
    let tv := tableGet g "threshold" (.int 30)
    let sv := tableGet g "history_size" (.int 25)
    .ok { threshold := if isIntLike tv then tv else .int 30,
          history_size := if isIntLike sv then sv else .int 25,
          burst_keys := .int 10,
          burst_window_ms := .int 100,
          allow_auto_type := .bool (pyTruthy (tableGet g "allow_auto_type_software" (.bool true))),
          run_on_startup := .bool (pyTruthy (tableGet g "run_on_startup" (.bool true))),
          watchdog_enabled := .bool (pyTruthy (tableGet g "watchdog_enabled" (.bool true))) }

theorem pyIndex_head (t0 : ℚ) (rest : List ℚ) : pyIndex (t0 :: rest) 0 = .ok t0 := by
  simp [pyIndex]

theorem pyIndex_last (l : List ℚ) (h : l ≠ []) : pyIndex l (-1) = .ok (l.getLast h) := by
  have hlen : 0 < l.length := List.length_pos.mpr h
  have ht : ((-1 : Int) + l.length).toNat = l.length - 1 := by omega
  have hn : l.length - 1 < l.length := by omega
  simp only [pyIndex, if_pos (show (-1 : Int) < 0 by norm_num)]
  rw [if_pos (by omega : (0 : Int) ≤ (-1 : Int) + (l.length : Int) ∧ (-1 : Int) + (l.length : Int) < (l.length : Int))]
  rw [ht, List.getD_eq_getElem _ _ hn, List.getLast_eq_getElem]

theorem pyIndex_neg (l : List ℚ) (k : Nat) (hk : 1 ≤ k) (hl : k ≤ l.length) :
    pyIndex l (-(k : Int)) = .ok (l.getD (l.length - k) 0) := by
  have hneg : (-(k : Int)) < 0 := by omega
  have hcond : (0 : Int) ≤ -(k : Int) + (l.length : Int)
      ∧ -(k : Int) + (l.length : Int) < (l.length : Int) := by omega
  have ht : (-(k : Int) + (l.length : Int)).toNat = l.length - k := by omega
  simp only [pyIndex, if_pos hneg]
  rw [if_pos hcond, ht]

theorem pyIndex_cases (l : List ℚ) (i : Int) :
    pyIndex l i = .error .indexError ∨ ∃ q, pyIndex l i = .ok q := by
  by_cases h : 0 ≤ (if i < 0 then i + (l.length : Int) else i)
      ∧ (if i < 0 then i + (l.length : Int) else i) < (l.length : Int)
  · right
    refine ⟨l.getD (if i < 0 then i + (l.length : Int) else i).toNat 0, ?_⟩
    simp only [pyIndex, if_pos h]
  · left
    simp only [pyIndex, if_neg h]

theorem dequeAppend_length (m : Nat) (l : List ℚ) (x : ℚ) :
    (dequeAppend m l x).length = min (l.length + 1) m := by
  simp [dequeAppend]
  omega

theorem check_speed_ne_zeroDiv (d : KeystrokeDetector) (h2 : 2 ≤ d.history_size)
    (hle : d.timestamps.length ≤ d.history_size) :
    check_speed d ≠ .error .zeroDivision := by
  unfold check_speed
  by_cases hlt : d.timestamps.length < d.history_size
  · simp [hlt]
  · rcases pyIndex_cases d.timestamps (-1) with he | ⟨q, hq⟩
    · simp [hlt, he, Bind.bind, Except.bind]
    · rcases pyIndex_cases d.timestamps 0 with he0 | ⟨q0, hq0⟩
      · simp [hlt, hq, he0, Bind.bind, Except.bind]
      · have hz : ¬ (d.timestamps.length - 1 = 0) := by omega
        simp [hlt, hq, hq0, hz, Bind.bind, Except.bind]

theorem check_burst_ne_zeroDiv (d : KeystrokeDetector) :
    check_burst d ≠ .error .zeroDivision := by
  unfold check_burst
  by_cases hlt : d.timestamps.length < d.burst_keys
  · simp [hlt]
  · rcases pyIndex_cases d.timestamps (-(d.burst_keys : Int)) with he | ⟨q, hq⟩
    · simp [hlt, he, Bind.bind, Except.bind]
    · rcases pyIndex_cases d.timestamps (-1) with he1 | ⟨q1, hq1⟩
      · simp [hlt, hq, he1, Bind.bind, Except.bind]
      · simp [hlt, hq, hq1, Bind.bind, Except.bind]

/-- C1: the spec's injected-key exemption does not exist in the code:
detector.process_keystroke accepts no is_injected parameter, so the
daemon hook callback's call of process_keystroke with keyword
is_injected raises TypeError for every detector configuration (in
particular every one with allow_auto_type true) and both flag values,
instead of returning false and leaving the window unchanged. -/
theorem C1_injected_keyword_raises :
    (∀ (d : KeystrokeDetector) (now : ℚ) (inj : Bool),
        daemon_detect d now inj = .error .typeErrorUnexpectedKw)
    ∧ daemon_detect defaultDetector 0 true = .error .typeErrorUnexpectedKw :=
  ⟨fun _ _ _ => rfl, rfl⟩

/-- C2: the speed check returns false while the window holds fewer
than history_size entries; once it holds exactly history_size ≥ 2
entries it reports suspicious exactly when
(newest - oldest) / (count - 1) < threshold_ms; and with threshold 30
and history 5, the run [0,5,10,15,20] flags only the fifth keystroke
while [0,40,80,120,160] flags none. -/
theorem C2_speed_check_characterisation :
    (∀ d : KeystrokeDetector, d.timestamps.length < d.history_size →
      check_speed d = .ok false)
    ∧ (∀ (d : KeystrokeDetector) (t0 : ℚ) (rest : List ℚ),
        d.timestamps = t0 :: rest →
        d.timestamps.length = d.history_size →
        2 ≤ d.history_size →
        check_speed d = .ok (decide
          (((t0 :: rest).getLast (List.cons_ne_nil t0 rest) - t0) /
            ((d.history_size : ℚ) - 1) < d.threshold_ms)))
    ∧ (run_keystrokes (mkDetector 30 5 10 100 true) [0, 5, 10, 15, 20]).map (fun p => p.2)
        = .ok [false, false, false, false, true]
    ∧ (run_keystrokes (mkDetector 30 5 10 100 true) [0, 40, 80, 120, 160]).map (fun p => p.2)
        = .ok [false, false, false, false, false] := by
  refine ⟨?_, ?_, ?_, ?_⟩
  · intro d hlt
    simp [check_speed, hlt]
  · intro d t0 rest hts hlen hhs
    obtain ⟨thr, hs, bk, bw, aat, ts⟩ := d
    simp only at hts hlen hhs
    subst hts
    have hne : t0 :: rest ≠ [] := List.cons_ne_nil t0 rest
    have hnlt : ¬ (t0 :: rest).length < hs := by omega
    have hz : ¬ ((t0 :: rest).length - 1 = 0) := by
      simp only [List.length_cons] at hlen ⊢
      omega
    simp only [check_speed, if_neg hnlt, pyIndex_last (t0 :: rest) hne, pyIndex_head,
      Bind.bind, Except.bind, if_neg hz]
    rw [hlen]
  · norm_num [run_keystrokes, process_keystroke, check_speed, check_burst, dequeAppend,
      pyIndex, mkDetector, Bind.bind, Except.bind, Except.map, List.getD,
      show Int.toNat 4 = 4 from rfl, show Int.toNat 3 = 3 from rfl,
      show Int.toNat 2 = 2 from rfl, show Int.toNat 1 = 1 from rfl,
      show Int.toNat 0 = 0 from rfl]
  · norm_num [run_keystrokes, process_keystroke, check_speed, check_burst, dequeAppend,
      pyIndex, mkDetector, Bind.bind, Except.bind, Except.map, List.getD,
      show Int.toNat 4 = 4 from rfl, show Int.toNat 3 = 3 from rfl,
      show Int.toNat 2 = 2 from rfl, show Int.toNat 1 = 1 from rfl,
      show Int.toNat 0 = 0 from rfl]

/-- Witness for C2: the window [0, 5] at history_size 2 is flagged by
the speed check (average interval 5 below threshold 30). -/
theorem C2_speed_check_witness :
    check_speed { mkDetector 30 2 10 100 true with timestamps := [0, 5] } = .ok true := by
  have h := C2_speed_check_characterisation.2.1
    { mkDetector 30 2 10 100 true with timestamps := [0, 5] } 0 [5] rfl rfl (by decide)
  rw [h]
  norm_num [mkDetector]

/-- C4: update_settings preserves the most recent
min(old capacity, new capacity) window entries in order (all entries
when the window holds fewer), and the window [1,2,3,4,5] at capacity
5 resized to capacity 3 becomes [3,4,5]. -/
theorem C4_resize_preserves_recent :
    (∀ (d : KeystrokeDetector) (t : ℚ) (hs bk : Nat) (bw : ℚ) (aat : Bool),
      d.timestamps.length ≤ d.history_size →
      (update_settings d t hs bk bw aat).timestamps
        = d.timestamps.drop (d.timestamps.length - min d.history_size hs))
    ∧ (update_settings { mkDetector 30 5 10 100 true with timestamps := [1, 2, 3, 4, 5] }
        30 3 10 100 true).timestamps = [3, 4, 5] := by
  constructor
  · intro d t hs bk bw aat hle
    by_cases h : hs = d.history_size
    · subst h
      have h0 : d.timestamps.length - d.history_size = 0 := by omega
      simp [update_settings, h0]
    · have hdrop : d.timestamps.length - hs = d.timestamps.length - min d.history_size hs := by
        rcases Nat.le_total hs d.history_size with hc | hc
        · rw [Nat.min_eq_right hc]
        · rw [Nat.min_eq_left hc]
          omega
      simp [update_settings, h, hdrop]
  · norm_num [update_settings, mkDetector]

/-- Witness for C4: a window of four entries at capacity 6 resized to
capacity 2 keeps the last two entries. -/
theorem C4_resize_witness :
    (update_settings { mkDetector 30 6 10 100 true with timestamps := [7, 8, 9, 10] }
        30 2 10 100 true).timestamps = [9, 10] := by
  have h := C4_resize_preserves_recent.1
    { mkDetector 30 6 10 100 true with timestamps := [7, 8, 9, 10] } 30 2 10 100 true
    (by decide)
  rw [h]
  rfl

/-- C10: for every detector with history_size at least 2 whose window
respects its capacity, process_keystroke never raises
ZeroDivisionError; with history_size 1 the very first keystroke makes
the speed check divide by zero. -/
theorem C10_division_guard :
    (∀ (d : KeystrokeDetector) (t : ℚ),
        2 ≤ d.history_size → d.timestamps.length ≤ d.history_size →
        process_keystroke d t ≠ .error .zeroDivision)
    ∧ process_keystroke (mkDetector 30 1 10 100 true) 0 = .error .zeroDivision := by
  constructor
  · intro d t h2 hle
    have hlen' : (dequeAppend d.history_size d.timestamps t).length ≤ d.history_size := by
      rw [dequeAppend_length]
      omega
    intro hcontra
    simp only [process_keystroke, Bind.bind, Except.bind] at hcontra
    cases hcs : check_speed { d with timestamps := dequeAppend d.history_size d.timestamps t } with
    | error e =>
      rw [hcs] at hcontra
      simp only [Except.error.injEq] at hcontra
      exact check_speed_ne_zeroDiv
        { d with timestamps := dequeAppend d.history_size d.timestamps t } h2 hlen'
        (hcs.trans (by rw [hcontra]))
    | ok s =>
      rw [hcs] at hcontra
      cases s with
      | true => simp at hcontra
      | false =>
        simp only [Bool.false_eq_true, if_false] at hcontra
        cases hcb : check_burst { d with timestamps := dequeAppend d.history_size d.timestamps t } with
        | error e =>
          rw [hcb] at hcontra
          simp only [Except.error.injEq] at hcontra
          exact check_burst_ne_zeroDiv _ (hcb.trans (by rw [hcontra]))
        | ok b =>
          rw [hcb] at hcontra
          simp at hcontra
  · norm_num [process_keystroke, check_speed, dequeAppend, pyIndex, mkDetector, Bind.bind,
      Except.bind, List.getD, show Int.toNat 0 = 0 from rfl]

/-- Witness for C10: the default detector (history_size 25) processes
a first keystroke without a ZeroDivisionError. -/
theorem C10_division_guard_witness :
    process_keystroke defaultDetector 0 ≠ .error .zeroDivision :=
  C10_division_guard.1 defaultDetector 0 (by decide) (by decide)

theorem pyIndex_last_getD (l : List ℚ) (h : l ≠ []) :
    pyIndex l (-1) = .ok (l.getD (l.length - 1) 0) := by
  have hlen : 0 < l.length := List.length_pos.mpr h
  have hn : l.length - 1 < l.length := by omega
  rw [pyIndex_last l h, List.getD_eq_getElem _ _ hn, List.getLast_eq_getElem]

/-- C3: the burst check returns false while the window holds fewer
than burst_keys entries; once it holds at least burst_keys ≥ 1
entries it reports suspicious exactly when the newest timestamp minus
the one burst_keys positions back is below burst_window_ms; with
burst_keys 3 and window 100 ms the tail [1000,1020,1040] is flagged
while [1000,1080,1160] is not; and process_keystroke returns the
speed result or-ed with the burst result. -/
theorem C3_burst_check_characterisation :
    (∀ d : KeystrokeDetector, d.timestamps.length < d.burst_keys →
      check_burst d = .ok false)
    ∧ (∀ d : KeystrokeDetector,
        1 ≤ d.burst_keys → d.burst_keys ≤ d.timestamps.length →
        check_burst d = .ok (decide
          (d.timestamps.getD (d.timestamps.length - 1) 0 -
            d.timestamps.getD (d.timestamps.length - d.burst_keys) 0 < d.burst_window_ms)))
    ∧ check_burst { mkDetector 30 25 3 100 true with timestamps := [1000, 1020, 1040] }
        = .ok true
    ∧ check_burst { mkDetector 30 25 3 100 true with timestamps := [1000, 1080, 1160] }
        = .ok false
    ∧ (∀ (d : KeystrokeDetector) (t : ℚ) (s b : Bool),
        check_speed { d with timestamps := dequeAppend d.history_size d.timestamps t } = .ok s →
        check_burst { d with timestamps := dequeAppend d.history_size d.timestamps t } = .ok b →
        process_keystroke d t
          = .ok ({ d with timestamps := dequeAppend d.history_size d.timestamps t }, s || b)) := by
  refine ⟨?_, ?_, ?_, ?_, ?_⟩
  · intro d hlt
    simp [check_burst, hlt]
  · intro d hk hl
    have hne : d.timestamps ≠ [] := by
      cases hts : d.timestamps with
      | nil => rw [hts] at hl; simp at hl; omega
      | cons a l => simp
    have hnlt : ¬ d.timestamps.length < d.burst_keys := by omega
    simp only [check_burst, if_neg hnlt, pyIndex_neg d.timestamps d.burst_keys hk hl,
      pyIndex_last_getD d.timestamps hne, Bind.bind, Except.bind]
  · norm_num [check_burst, pyIndex, mkDetector, Bind.bind, Except.bind, List.getD,
      show Int.toNat 2 = 2 from rfl, show Int.toNat 0 = 0 from rfl]
  · norm_num [check_burst, pyIndex, mkDetector, Bind.bind, Except.bind, List.getD,
      show Int.toNat 2 = 2 from rfl, show Int.toNat 0 = 0 from rfl]
  · intro d t s b hs hb
    cases s with
    | true => simp [process_keystroke, Bind.bind, Except.bind, hs]
    | false => simp [process_keystroke, Bind.bind, Except.bind, hs, hb]

/-- Witness for C3: with burst_keys 2 and window 100 the window
[0, 50] is flagged by the burst check. -/
theorem C3_burst_check_witness :
    check_burst { mkDetector 30 25 2 100 true with timestamps := [0, 50] } = .ok true := by
  have h := C3_burst_check_characterisation.2.1
    { mkDetector 30 25 2 100 true with timestamps := [0, 50] } (by decide) (by decide)
  rw [h]
  norm_num [mkDetector]

/-- C5: a detected message sets incident_pending and emits no
notification; an unlock with an incident pending emits exactly one
notification and clears both flags; an unlock with none pending emits
none; a detected while one is already pending changes nothing and
emits nothing; and the scenario detected, unlock, unlock emits exactly
one notification in total. -/
theorem C5_incident_correlation :
    (∀ s : ControllerState,
        controller_step s .detected = ({ s with incident_pending := true }, 0))
    ∧ (∀ s : ControllerState, s.incident_pending = true →
        controller_step s .sessionUnlock
          = ({ is_locked := false, incident_pending := false }, 1))
    ∧ (∀ s : ControllerState, s.incident_pending = false →
        controller_step s .sessionUnlock = ({ s with is_locked := false }, 0))
    ∧ (∀ s : ControllerState, s.incident_pending = true →
        controller_step s .detected = (s, 0))
    ∧ controller_run { is_locked := true, incident_pending := false }
        [.detected, .sessionUnlock, .sessionUnlock]
        = ({ is_locked := false, incident_pending := false }, 1) := by
  refine ⟨?_, ?_, ?_, ?_, ?_⟩
  · intro s
    simp [controller_step]
  · intro s hp
    simp [controller_step, hp]
  · intro s hp
    simp [controller_step, hp]
  · intro s hp
    obtain ⟨lk, pend⟩ := s
    simp only at hp
    subst hp
    simp [controller_step]
  · rfl

/-- Witness for C5: an unlock in the locked-with-pending-incident
state emits exactly one notification and clears the flag. -/
theorem C5_incident_correlation_witness :
    controller_step { is_locked := true, incident_pending := true } .sessionUnlock
      = ({ is_locked := false, incident_pending := false }, 1) :=
  C5_incident_correlation.2.1 { is_locked := true, incident_pending := true } rfl

/-- C6: a channel drop while connected forces the daemon to Idle
(running cleared, hook uninstalled, detector reset, connection
cleared) without terminating; while disconnected every failed connect
attempt leaves the state unchanged and sleeps 1000 ms, for any number
of attempts; a successful reconnect only sets connected; and once
reconnected no message except start sets running. -/
theorem C6_reconnect_resilience :
    (∀ s : DaemonState, s.connected = true → s.terminated = false →
        daemon_step s .channelDrop
          = ({ s with
                connected := false, running := false, hook_installed := false,
                detector := reset s.detector },
             { noEffects with uninstalls := if s.hook_installed then 1 else 0 }))
    ∧ (∀ (s : DaemonState) (n : Nat), s.connected = false → s.terminated = false →
        daemon_run s (List.replicate n (.connectAttempt false))
          = (s, { noEffects with sleep_ms := 1000 * n }))
    ∧ (∀ s : DaemonState, s.connected = false → s.terminated = false →
        daemon_step s (.connectAttempt true) = ({ s with connected := true }, noEffects))
    ∧ (∀ (s : DaemonState) (m : DaemonMsg), s.connected = true → s.terminated = false →
        s.running = false → m ≠ .start →
        ((daemon_step s (.recvMsg m)).1).running = false) := by
  refine ⟨?_, ?_, ?_, ?_⟩
  · intro s hc ht
    simp [daemon_step, stop_monitoring, hc, ht]
  · intro s n hc ht
    induction n with
    | zero => simp [daemon_run, noEffects]
    | succ k ih =>
      rw [List.replicate_succ]
      simp only [daemon_run, daemon_step, hc, ht, ih, Bool.false_eq_true, if_false,
        if_neg, addEffects, noEffects]
      simp only [DaemonEffects.mk.injEq, Prod.mk.injEq, true_and, and_true]
      omega
  · intro s hc ht
    simp [daemon_step, hc, ht]
  · intro s m hc ht hr hm
    cases m with
    | start => exact absurd rfl hm
    | stop => simp [daemon_step, stop_monitoring, hc, ht]
    | config t hs bk bw aat => simp [daemon_step, hc, ht, hr]
    | exitMsg => simp [daemon_step, stop_monitoring, hc, ht]

/-- Witness for C6: dropping the channel on a concrete monitoring
state uninstalls the hook and returns the daemon to Idle. -/
theorem C6_reconnect_resilience_witness :
    daemon_step
        { running := true, hook_installed := true, connected := true, terminated := false,
          detector := defaultDetector } .channelDrop
      = ({ running := false, hook_installed := false, connected := false, terminated := false,
           detector := reset defaultDetector },
         { noEffects with uninstalls := 1 }) :=
  C6_reconnect_resilience.1
    { running := true, hook_installed := true, connected := true, terminated := false,
      detector := defaultDetector } rfl rfl

/-- C7: processing exit twice from the Monitoring state performs
exactly one hook uninstall and one channel close (the daemon has
terminated before the second exit arrives), and the controller's
send_command never propagates an exception — a failed send clears the
connection handle instead. -/
theorem C7_idempotent_exit :
    (∀ s : DaemonState, s.connected = true → s.running = true → s.hook_installed = true →
        s.terminated = false →
        (daemon_run s [.recvMsg .exitMsg, .recvMsg .exitMsg]).2
            = { sleep_ms := 0, uninstalls := 1, closes := 1 }
          ∧ ((daemon_run s [.recvMsg .exitMsg, .recvMsg .exitMsg]).1).terminated = true)
    ∧ (∀ (conn : Bool) (r : SendResult), (send_command conn r).2 = false)
    ∧ send_command true .failed = (false, false) := by
  refine ⟨?_, ?_, ?_⟩
  · intro s hc hr hh ht
    constructor
    · simp [daemon_run, daemon_step, stop_monitoring, hc, hh, ht, addEffects, noEffects]
    · simp [daemon_run, daemon_step, stop_monitoring, hc, hh, ht]
  · intro conn r
    cases conn <;> cases r <;> rfl
  · rfl

/-- Witness for C7: the double exit on a concrete monitoring state
yields exactly one uninstall and one close, and the daemon ends
terminated. -/
theorem C7_idempotent_exit_witness :
    (daemon_run
        { running := true, hook_installed := true, connected := true, terminated := false,
          detector := defaultDetector } [.recvMsg .exitMsg, .recvMsg .exitMsg]).2
      = { sleep_ms := 0, uninstalls := 1, closes := 1 } :=
  (C7_idempotent_exit.1
    { running := true, hook_installed := true, connected := true, terminated := false,
      detector := defaultDetector } rfl rfl rfl rfl).1

theorem watchdog_tick_should_exit (s s' : WatchdogState) (i : WatchdogTickInput)
    (h : watchdog_tick s i = .ok s') : s'.should_exit = s.should_exit := by
  obtain ⟨dl, cp, se⟩ := s
  obtain ⟨da, ca, ds, cs, np⟩ := i
  cases dl <;> cases da <;> cases ds <;> cases ca <;> cases cs <;> rcases cp with _ | p <;>
    simp only [watchdog_tick, launch_daemon_w, launch_controller_w, Bind.bind, Except.bind,
      if_true, if_false, Bool.true_eq_false, Bool.false_eq_true, ite_true, ite_false] at h <;>
    simp_all <;> (try subst h) <;> rfl

/-- C8 amended: no iteration of the watchdog loop ever writes the
internal exit flag (should_exit is preserved by every completed tick
and stays false across every completed run), and a daemon found dead
is relaunched on the tick when its spawn succeeds; the claim's
further assertion that no iteration otherwise exits the loop fails,
because an exception from the unguarded spawn call propagates. -/
theorem C8_watchdog_no_internal_exit :
    (∀ (s s' : WatchdogState) (i : WatchdogTickInput),
        watchdog_tick s i = .ok s' → s'.should_exit = s.should_exit)
    ∧ (∀ (s s' : WatchdogState) (inputs : List WatchdogTickInput),
        s.should_exit = false → watchdog_run s inputs = .ok s' → s'.should_exit = false)
    ∧ (∀ (s : WatchdogState) (i : WatchdogTickInput),
        s.daemon_launched = true → i.daemon_alive = false → i.daemon_spawn_ok = true →
        i.controller_alive = true → s.controller_pid = some 1 →
        ∃ s', watchdog_tick s i = .ok s' ∧ s'.daemon_launched = true) := by
  refine ⟨watchdog_tick_should_exit, ?_, ?_⟩
  · intro s s' inputs
    induction inputs generalizing s with
    | nil =>
      intro hse h
      unfold watchdog_run at h
      cases h
      exact hse
    | cons i is ih =>
      intro hse h
      unfold watchdog_run at h
      rw [if_neg (by simp [hse])] at h
      simp only [Bind.bind, Except.bind] at h
      cases hx : watchdog_tick s i with
      | error e => rw [hx] at h; cases h
      | ok s1 =>
        rw [hx] at h
        exact ih s1 ((watchdog_tick_should_exit s s1 i hx).trans hse) h
  · intro s i hdl hda hds hca hcp
    refine ⟨{ s with daemon_launched := true }, ?_, rfl⟩
    simp [watchdog_tick, launch_daemon_w, hdl, hda, hds, hca, hcp, Bind.bind, Except.bind]

/-- Witness for C8's amended statement: a completed one-tick run from
a concrete state with the flag false ends with the flag still
false. -/
theorem C8_watchdog_no_internal_exit_witness :
    (watchdog_run { daemon_launched := true, controller_pid := some 1, should_exit := false }
        [{ daemon_alive := true, controller_alive := true, daemon_spawn_ok := true,
           controller_spawn_ok := true, new_controller_pid := 2 }]
      = .ok { daemon_launched := true, controller_pid := some 1, should_exit := false })
    ∧ ({ daemon_launched := true, controller_pid := some 1, should_exit := false }
        : WatchdogState).should_exit = false :=
  ⟨rfl, C8_watchdog_no_internal_exit.2.1
    { daemon_launched := true, controller_pid := some 1, should_exit := false }
    { daemon_launched := true, controller_pid := some 1, should_exit := false }
    [{ daemon_alive := true, controller_alive := true, daemon_spawn_ok := true,
       controller_spawn_ok := true, new_controller_pid := 2 }] rfl rfl⟩

/-- C8 counterexample: on the iteration where the tracked daemon is
dead and the relaunching Popen call raises, the exception leaves the
loop — the run aborts even though should_exit was never set, so a
launch failure is not simply retried on the next tick. -/
theorem C8_spawn_failure_exits_loop :
    watchdog_run { daemon_launched := true, controller_pid := some 1, should_exit := false }
        [{ daemon_alive := false, controller_alive := true, daemon_spawn_ok := false,
           controller_spawn_ok := true, new_controller_pid := 2 }]
      = .error .spawnError := rfl

/-- C9 amended: configuration loading falls back to the defaults
silently whenever the persisted file fails to parse — a TOML parse
exception or an exception while exec-ing a legacy conf — and legacy
loading never raises at all; a well-formed TOML file whose top-level
duckhunt key is not a table is the exception, raising instead of
defaulting. -/
theorem C9_parse_failure_defaults :
    from_toml .failure = .ok defaultConfig
    ∧ from_legacy_conf .failure = .ok defaultConfig
    ∧ (∀ g, ∃ c, from_legacy_conf (.success g) = .ok c) :=
  ⟨rfl, rfl, fun g => ⟨_, rfl⟩⟩

/-- C9 counterexample: the valid TOML document whose single top-level
binding maps duckhunt to the integer 5 is a malformed configuration
file, yet from_toml raises AttributeError on it (the .get calls run
on a non-table) instead of returning the defaults. -/
theorem C9_nontable_duckhunt_raises :
    from_toml (.success [("duckhunt", .int 5)]) = .error .attributeError := rfl
